import Mathlib

/-
Verification of the request/response normalization and failure-mapping layer
of the OpenAI-Python-Wrapper repository.

The embedding models the two components under src/utils/openai_utils.py
(the Provider Adapter, class OpenAIUtils) and src/services/openai_service.py
(the Operation Service, class OpenAIService).  Python exceptions are modelled
as explicit error values carried in an Except monad; the upstream OpenAI
client (openai.Completion.create / openai.ChatCompletion.create) is modelled
as an oracle function from the outbound keyword arguments to an outcome.
Python float parameters are modelled as rationals: the layer performs no
arithmetic on them, it only passes them through.
-/

namespace OpenAIWrapper

/-- A Python value as it appears among the keyword arguments of the outbound
completion-style provider call.  `vNone` is the Python value None. -/
inductive PyVal where
  | vStr (s : String)
  | vInt (n : Int)
  | vFloat (q : Rat)
  | vNone
  deriving DecidableEq, Repr

/-- An Optional[int] Python argument as a keyword-argument value:
None becomes the explicit value None. -/
def optInt : Option Int → PyVal
  | Option.none => PyVal.vNone
  | Option.some n => PyVal.vInt n

/-- An Optional[float] Python argument as a keyword-argument value. -/
def optFloat : Option Rat → PyVal
  | Option.none => PyVal.vNone
  | Option.some q => PyVal.vFloat q

/-- An Optional[str] Python argument as a keyword-argument value. -/
def optStr : Option String → PyVal
  | Option.none => PyVal.vNone
  | Option.some s => PyVal.vStr s

/-- The Python exceptions that can travel through this layer:
openai.error.APIError, fastapi.HTTPException (status code and detail),
IndexError from indexing an empty choices list, and any other exception. -/
inductive PyError where
  | apiError (msg : String)
  | httpException (status : Nat) (detail : String)
  | indexError (msg : String)
  | other (msg : String)
  deriving DecidableEq, Repr

/-- The text str(e) of an exception, as interpolated by the f-strings of the
source.  For HTTPException, Starlette renders "status_code: detail". -/
def pyStr : PyError → String
  | PyError.apiError m => m
  | PyError.httpException st d => toString st ++ ": " ++ d
  | PyError.indexError m => m
  | PyError.other m => m

/-- The status code of an exception when it is an HTTPException with
status 500, as a Boolean test. -/
def PyError.isHttp500 : PyError → Bool
  | PyError.httpException 500 _ => true
  | _ => false

/-- The detail / message text carried by an exception. -/
def PyError.detail : PyError → String
  | PyError.apiError m => m
  | PyError.httpException _ d => d
  | PyError.indexError m => m
  | PyError.other m => m

/- String helpers: leading-segment and substring tests on the underlying
character lists, used to state the leading-text and substring properties of error
details. -/

/-- Truth of `beginsWith needle hay` : needle is a leading segment of hay. -/
def beginsWith : List Char → List Char → Bool
  | [], _ => true
  | d :: ds, hay =>
    match hay with
    | [] => false
    | c :: cs => (c == d) && beginsWith ds cs

/-- Truth of `occursList needle hay` : needle occurs contiguously in hay. -/
def occursList (needle : List Char) : List Char → Bool
  | [] => needle.isEmpty
  | c :: cs => beginsWith needle (c :: cs) || occursList needle cs

/-- Test `strStarts s p` : the string s begins with the string p. -/
def strStarts (s p : String) : Bool := beginsWith p.data s.data

/-- Test `strOccurs s n` : the string n occurs as a substring of s. -/
def strOccurs (s n : String) : Bool := occursList n.data s.data

theorem data_append (s t : String) : (s ++ t).data = s.data ++ t.data := rfl

theorem beginsWith_append_left (p a b : List Char)
    (h : beginsWith p a = true) : beginsWith p (a ++ b) = true := by
  induction p generalizing a with
  | nil => rfl
  | cons d ds ih =>
    cases a with
    | nil => simp [beginsWith] at h
    | cons c cs =>
      simp only [beginsWith, List.cons_append, Bool.and_eq_true] at h ⊢
      exact ⟨h.1, ih cs h.2⟩

theorem beginsWith_append_of_le (p a b : List Char)
    (h : p.length ≤ a.length) : beginsWith p (a ++ b) = beginsWith p a := by
  induction p generalizing a with
  | nil => rfl
  | cons d ds ih =>
    cases a with
    | nil => simp at h
    | cons c cs =>
      simp only [beginsWith, List.cons_append]
      simp only [List.length_cons, Nat.succ_le_succ_iff] at h
      rw [ih cs h]

theorem occursList_append_left (p a b : List Char)
    (h : occursList p a = true) : occursList p (a ++ b) = true := by
  induction a with
  | nil =>
    simp only [occursList, List.isEmpty_iff] at h
    subst h
    cases b with
    | nil => rfl
    | cons c cs => simp [occursList, beginsWith]
  | cons c cs ih =>
    simp only [occursList, Bool.or_eq_true, List.cons_append] at h ⊢
    cases h with
    | inl h =>
      exact Or.inl (beginsWith_append_left p (c :: cs) b h)
    | inr h => exact Or.inr (ih h)

theorem strStarts_append_left (s t p : String)
    (h : strStarts s p = true) : strStarts (s ++ t) p = true := by
  unfold strStarts at h ⊢
  rw [data_append]
  exact beginsWith_append_left p.data s.data t.data h

theorem strStarts_append_of_le (s t p : String)
    (h : p.data.length ≤ s.data.length) :
    strStarts (s ++ t) p = strStarts s p := by
  unfold strStarts
  rw [data_append]
  exact beginsWith_append_of_le p.data s.data t.data h

theorem strOccurs_append_left (s t n : String)
    (h : strOccurs s n = true) : strOccurs (s ++ t) n = true := by
  unfold strOccurs at h ⊢
  rw [data_append]
  exact occursList_append_left n.data s.data t.data h

theorem beginsWith_self (l : List Char) : beginsWith l l = true := by
  induction l with
  | nil => rfl
  | cons c cs ih => simp [beginsWith, ih]

theorem occursList_of_begins (p h : List Char)
    (hb : beginsWith p h = true) : occursList p h = true := by
  cases h with
  | nil =>
    cases p with
    | nil => rfl
    | cons d ds => simp [beginsWith] at hb
  | cons c cs => simp [occursList, hb]

theorem occursList_append_right (p a b : List Char)
    (h : occursList p b = true) : occursList p (a ++ b) = true := by
  induction a with
  | nil => simpa using h
  | cons c cs ih => simp [occursList, ih]

theorem strStarts_self_append (p t : String) : strStarts (p ++ t) p = true := by
  unfold strStarts
  rw [data_append]
  exact beginsWith_append_left p.data p.data t.data (beginsWith_self p.data)

theorem strStarts_append_false (s t p : String)
    (hle : p.data.length ≤ s.data.length)
    (h : strStarts s p = false) : strStarts (s ++ t) p = false := by
  rw [strStarts_append_of_le s t p hle]
  exact h

theorem strOccurs_append_right (s t n : String)
    (h : strOccurs t n = true) : strOccurs (s ++ t) n = true := by
  unfold strOccurs at h ⊢
  rw [data_append]
  exact occursList_append_right n.data s.data t.data h

theorem strOccurs_of_starts (s n : String)
    (h : strStarts s n = true) : strOccurs s n = true := by
  unfold strStarts at h
  unfold strOccurs
  exact occursList_of_begins n.data s.data h

/- Provider response objects.  The real response is a closed-box duck-typed
openai.OpenAIObject; the fields below model the parts the code can touch,
together with extra fields (finish_reason, resp_id) standing for the parts
of the response that the code never reads. -/

/-- One element of the choices list of a completion-style response. -/
structure CompletionChoice where
  text : String
  finish_reason : String
  deriving DecidableEq, Repr

/-- A completion-style provider response (openai.Completion). -/
structure CompletionResponse where
  choices : List CompletionChoice
  resp_id : String
  deriving DecidableEq, Repr

/-- The message object inside a chat-style choice. -/
structure ChatMessage where
  role : String
  content : String
  deriving DecidableEq, Repr

/-- One element of the choices list of a chat-style response. -/
structure ChatChoice where
  message : ChatMessage
  finish_reason : String
  deriving DecidableEq, Repr

/-- A chat-style provider response (openai.ChatCompletion). -/
structure ChatResponse where
  choices : List ChatChoice
  resp_id : String
  deriving DecidableEq, Repr

/-- The outcome of one outbound provider call: a normal response, an
openai.error.APIError raised by the client, or any other exception raised
by the client. -/
inductive ProviderOutcome (α : Type) where
  | ok (resp : α)
  | apiErr (msg : String)
  | otherErr (msg : String)
  deriving DecidableEq, Repr

/-- The upstream completion endpoint, as an oracle from the outbound keyword
arguments to an outcome. -/
def CompletionProvider : Type :=
  List (String × PyVal) → ProviderOutcome CompletionResponse

/-- One message dictionary of the outbound messages list of an
openai.ChatCompletion.create call, with keys role and content. -/
structure ChatCallMessage where
  role : String
  content : String
  deriving DecidableEq, Repr

/-- The keyword arguments of an outbound openai.ChatCompletion.create call:
model and messages. -/
structure ChatCall where
  model : String
  messages : List ChatCallMessage
  deriving DecidableEq, Repr

/-- The upstream chat endpoint, as an oracle from the outbound keyword
arguments to an outcome. -/
def ChatProvider : Type :=
  ChatCall → ProviderOutcome ChatResponse

/-- Default model of OpenAIUtils.generate_text and
OpenAIService.generate_text. -/
def generate_text_default_model : String := "text-davinci-003"

/-- Default model of OpenAIUtils.translate_text and
OpenAIService.translate_text. -/
def translate_text_default_model : String := "gpt-3.5-turbo"

/-- Default model of OpenAIUtils.complete_code and
OpenAIService.complete_code. -/
def complete_code_default_model : String := "code-davinci-002"

/-- The keyword arguments of the outbound openai.Completion.create call made
by OpenAIUtils.generate_text (src/utils/openai_utils.py lines 69-79).  Every
keyword of the source call is transmitted, with the Python value of the
corresponding parameter. -/
def generate_text_call (prompt : String)
    (model : String := generate_text_default_model)
    (max_tokens : Option Int := Option.none) (temperature : Rat := 7/10)
    (top_p : Option Rat := Option.none) (frequency_penalty : Rat := 0)
    (presence_penalty : Rat := 0) (stop : Option String := Option.none) :
    List (String × PyVal) :=
  [("engine", PyVal.vStr model),
   ("prompt", PyVal.vStr prompt),
   ("max_tokens", optInt max_tokens),
   ("temperature", PyVal.vFloat temperature),
   ("top_p", optFloat top_p),
   ("frequency_penalty", PyVal.vFloat frequency_penalty),
   ("presence_penalty", PyVal.vFloat presence_penalty),
   ("stop", optStr stop)]

/-- The keyword arguments of the outbound openai.ChatCompletion.create call
made by OpenAIUtils.translate_text (src/utils/openai_utils.py lines
106-113): the model and a messages list holding a single user message with
the fixed instruction template. -/
def translate_text_call (text target_language : String)
    (model : String := translate_text_default_model) : ChatCall :=
  { model := model,
    messages :=
      [{ role := "user",
         content :=
           "Translate this text into " ++ target_language ++ ": " ++ text }] }

/-- The keyword arguments of the outbound openai.Completion.create call made
by OpenAIUtils.complete_code (src/utils/openai_utils.py lines 149-159). -/
def complete_code_call (prompt : String)
    (model : String := complete_code_default_model)
    (max_tokens : Option Int := Option.none) (temperature : Rat := 7/10)
    (top_p : Option Rat := Option.none) (frequency_penalty : Rat := 0)
    (presence_penalty : Rat := 0) (stop : Option String := Option.none) :
    List (String × PyVal) :=
  [("engine", PyVal.vStr model),
   ("prompt", PyVal.vStr prompt),
   ("max_tokens", optInt max_tokens),
   ("temperature", PyVal.vFloat temperature),
   ("top_p", optFloat top_p),
   ("frequency_penalty", PyVal.vFloat frequency_penalty),
   ("presence_penalty", PyVal.vFloat presence_penalty),
   ("stop", optStr stop)]

/- Provider Adapter (class OpenAIUtils, src/utils/openai_utils.py).
Each method issues one outbound call and translates exceptions:
an openai.error.APIError e becomes HTTPException(500, "OpenAI API Error: "
followed by str(e)); any other exception e becomes HTTPException(500,
the generic per-operation text followed by str(e)). -/

/-- OpenAIUtils.generate_text (src/utils/openai_utils.py lines 39-84). -/
def OpenAIUtils.generate_text (provider : CompletionProvider)
    (prompt : String) (model : String := generate_text_default_model)
    (max_tokens : Option Int := Option.none) (temperature : Rat := 7/10)
    (top_p : Option Rat := Option.none) (frequency_penalty : Rat := 0)
    (presence_penalty : Rat := 0) (stop : Option String := Option.none) :
    Except PyError CompletionResponse :=
  match provider (generate_text_call prompt model max_tokens temperature
      top_p frequency_penalty presence_penalty stop) with
  | ProviderOutcome.ok response => Except.ok response
  | ProviderOutcome.apiErr m =>
    Except.error (PyError.httpException 500
      ("OpenAI API Error: " ++ pyStr (PyError.apiError m)))
  | ProviderOutcome.otherErr m =>
    Except.error (PyError.httpException 500
      ("Error generating text: " ++ pyStr (PyError.other m)))

/-- OpenAIUtils.translate_text (src/utils/openai_utils.py lines 86-117). -/
def OpenAIUtils.translate_text (provider : ChatProvider)
    (text target_language : String)
    (model : String := translate_text_default_model) :
    Except PyError ChatResponse :=
  match provider (translate_text_call text target_language model) with
  | ProviderOutcome.ok response => Except.ok response
  | ProviderOutcome.apiErr m =>
    Except.error (PyError.httpException 500
      ("OpenAI API Error: " ++ pyStr (PyError.apiError m)))
  | ProviderOutcome.otherErr m =>
    Except.error (PyError.httpException 500
      ("Error translating text: " ++ pyStr (PyError.other m)))

/-- OpenAIUtils.complete_code (src/utils/openai_utils.py lines 119-164). -/
def OpenAIUtils.complete_code (provider : CompletionProvider)
    (prompt : String) (model : String := complete_code_default_model)
    (max_tokens : Option Int := Option.none) (temperature : Rat := 7/10)
    (top_p : Option Rat := Option.none) (frequency_penalty : Rat := 0)
    (presence_penalty : Rat := 0) (stop : Option String := Option.none) :
    Except PyError CompletionResponse :=
  match provider (complete_code_call prompt model max_tokens temperature
      top_p frequency_penalty presence_penalty stop) with
  | ProviderOutcome.ok response => Except.ok response
  | ProviderOutcome.apiErr m =>
    Except.error (PyError.httpException 500
      ("OpenAI API Error: " ++ pyStr (PyError.apiError m)))
  | ProviderOutcome.otherErr m =>
    Except.error (PyError.httpException 500
      ("Error completing code: " ++ pyStr (PyError.other m)))

/- Operation Service (class OpenAIService, src/services/openai_service.py).
Each method runs a try block consisting of the adapter call followed by the
extraction of one field of the response; the first except clause catches
openai.error.APIError, the second catches every other exception.  Indexing
choices[0] of an empty list raises IndexError inside the try block. -/

/-- The body of the try block of OpenAIService.generate_text: the adapter
call, then the indexing response.choices[0].text and the construction of
the normalized result mapping. -/
def OpenAIService.generate_text_try (provider : CompletionProvider)
    (prompt model : String) (max_tokens : Option Int) (temperature : Rat)
    (top_p : Option Rat) (frequency_penalty presence_penalty : Rat)
    (stop : Option String) : Except PyError (List (String × String)) :=
  match OpenAIUtils.generate_text provider prompt model max_tokens
      temperature top_p frequency_penalty presence_penalty stop with
  | Except.error e => Except.error e
  | Except.ok response =>
    match response.choices with
    | [] => Except.error (PyError.indexError "list index out of range")
    | choice :: _ => Except.ok [("text", choice.text)]

/-- OpenAIService.generate_text (src/services/openai_service.py lines
46-92): the try block, then the two except clauses. -/
def OpenAIService.generate_text (provider : CompletionProvider)
    (prompt : String) (model : String := generate_text_default_model)
    (max_tokens : Option Int := Option.none) (temperature : Rat := 7/10)
    (top_p : Option Rat := Option.none) (frequency_penalty : Rat := 0)
    (presence_penalty : Rat := 0) (stop : Option String := Option.none) :
    Except PyError (List (String × String)) :=
  match OpenAIService.generate_text_try provider prompt model max_tokens
      temperature top_p frequency_penalty presence_penalty stop with
  | Except.ok v => Except.ok v
  | Except.error (PyError.apiError m) =>
    Except.error (PyError.httpException 500
      ("OpenAI API Error: " ++ pyStr (PyError.apiError m)))
  | Except.error e =>
    Except.error (PyError.httpException 500
      ("Error generating text: " ++ pyStr e))

/-- The body of the try block of OpenAIService.translate_text: the adapter
call, then the indexing response.choices[0].message.content. -/
def OpenAIService.translate_text_try (provider : ChatProvider)
    (text target_language model : String) :
    Except PyError (List (String × String)) :=
  match OpenAIUtils.translate_text provider text target_language model with
  | Except.error e => Except.error e
  | Except.ok response =>
    match response.choices with
    | [] => Except.error (PyError.indexError "list index out of range")
    | choice :: _ => Except.ok [("translation", choice.message.content)]

/-- OpenAIService.translate_text (src/services/openai_service.py lines
94-121). -/
def OpenAIService.translate_text (provider : ChatProvider)
    (text target_language : String)
    (model : String := translate_text_default_model) :
    Except PyError (List (String × String)) :=
  match OpenAIService.translate_text_try provider text target_language
      model with
  | Except.ok v => Except.ok v
  | Except.error (PyError.apiError m) =>
    Except.error (PyError.httpException 500
      ("OpenAI API Error: " ++ pyStr (PyError.apiError m)))
  | Except.error e =>
    Except.error (PyError.httpException 500
      ("Error translating text: " ++ pyStr e))

/-- The body of the try block of OpenAIService.complete_code: the adapter
call, then the indexing response.choices[0].text. -/
def OpenAIService.complete_code_try (provider : CompletionProvider)
    (prompt model : String) (max_tokens : Option Int) (temperature : Rat)
    (top_p : Option Rat) (frequency_penalty presence_penalty : Rat)
    (stop : Option String) : Except PyError (List (String × String)) :=
  match OpenAIUtils.complete_code provider prompt model max_tokens
      temperature top_p frequency_penalty presence_penalty stop with
  | Except.error e => Except.error e
  | Except.ok response =>
    match response.choices with
    | [] => Except.error (PyError.indexError "list index out of range")
    | choice :: _ => Except.ok [("code", choice.text)]

/-- OpenAIService.complete_code (src/services/openai_service.py lines
123-169). -/
def OpenAIService.complete_code (provider : CompletionProvider)
    (prompt : String) (model : String := complete_code_default_model)
    (max_tokens : Option Int := Option.none) (temperature : Rat := 7/10)
    (top_p : Option Rat := Option.none) (frequency_penalty : Rat := 0)
    (presence_penalty : Rat := 0) (stop : Option String := Option.none) :
    Except PyError (List (String × String)) :=
  match OpenAIService.complete_code_try provider prompt model max_tokens
      temperature top_p frequency_penalty presence_penalty stop with
  | Except.ok v => Except.ok v
  | Except.error (PyError.apiError m) =>
    Except.error (PyError.httpException 500
      ("OpenAI API Error: " ++ pyStr (PyError.apiError m)))
  | Except.error e =>
    Except.error (PyError.httpException 500
      ("Error completing code: " ++ pyStr e))

/-- Spec-side definition for the refinement claim about generate versus
complete_code.  The spec says complete_code is of identical shape to
generate up to the operation-specific generic detail text: this definition
is that common shape, written once with the generic detail text as a
parameter, to be compared with the two adapter operations transcribed from
the source. -/
def specSharedAdapterShape (genericText : String)
    (provider : CompletionProvider) (call : List (String × PyVal)) :
    Except PyError CompletionResponse :=
  match provider call with
  | ProviderOutcome.ok response => Except.ok response
  | ProviderOutcome.apiErr m =>
    Except.error (PyError.httpException 500 ("OpenAI API Error: " ++ m))
  | ProviderOutcome.otherErr m =>
    Except.error (PyError.httpException 500 (genericText ++ m))

/-- C2 counterexample: with every optional parameter unset, the outbound
provider call of generate_text and of complete_code still carries the
keywords max_tokens, top_p and stop, each mapped to the explicit Python
value None; they are not omitted from the call. -/
theorem C2_unset_optionals_counterexample :
    ("max_tokens", PyVal.vNone) ∈
      generate_text_call "p" "m" Option.none 0 Option.none 0 0 Option.none
    ∧ ("top_p", PyVal.vNone) ∈
      generate_text_call "p" "m" Option.none 0 Option.none 0 0 Option.none
    ∧ ("stop", PyVal.vNone) ∈
      generate_text_call "p" "m" Option.none 0 Option.none 0 0 Option.none
    ∧ ("max_tokens", PyVal.vNone) ∈
      complete_code_call "p" "m" Option.none 0 Option.none 0 0 Option.none
    ∧ ("top_p", PyVal.vNone) ∈
      complete_code_call "p" "m" Option.none 0 Option.none 0 0 Option.none
    ∧ ("stop", PyVal.vNone) ∈
      complete_code_call "p" "m" Option.none 0 Option.none 0 0 Option.none := by
  refine ⟨?_, ?_, ?_, ?_, ?_, ?_⟩ <;> decide

/-- C2 amended: the optional parameters max_tokens, top_p and stop always
appear as keywords of the outbound provider call of generate_text and of
complete_code, carrying the Python value of the argument; in particular,
when the caller leaves one unset, it is transmitted as the explicit value
None rather than omitted. -/
theorem C2_unset_optionals_transmitted_as_none (prompt model : String)
    (max_tokens : Option Int) (temperature : Rat) (top_p : Option Rat)
    (frequency_penalty presence_penalty : Rat) (stop : Option String) :
    ("max_tokens", optInt max_tokens) ∈
      generate_text_call prompt model max_tokens temperature top_p
        frequency_penalty presence_penalty stop
    ∧ ("top_p", optFloat top_p) ∈
      generate_text_call prompt model max_tokens temperature top_p
        frequency_penalty presence_penalty stop
    ∧ ("stop", optStr stop) ∈
      generate_text_call prompt model max_tokens temperature top_p
        frequency_penalty presence_penalty stop
    ∧ ("max_tokens", optInt max_tokens) ∈
      complete_code_call prompt model max_tokens temperature top_p
        frequency_penalty presence_penalty stop
    ∧ ("top_p", optFloat top_p) ∈
      complete_code_call prompt model max_tokens temperature top_p
        frequency_penalty presence_penalty stop
    ∧ ("stop", optStr stop) ∈
      complete_code_call prompt model max_tokens temperature top_p
        frequency_penalty presence_penalty stop
    ∧ optInt Option.none = PyVal.vNone
    ∧ optFloat Option.none = PyVal.vNone
    ∧ optStr Option.none = PyVal.vNone := by
  refine ⟨?_, ?_, ?_, ?_, ?_, ?_, rfl, rfl, rfl⟩ <;>
    simp [generate_text_call, complete_code_call]

/-- C6: for every text, target language and model, the outbound chat call of
the adapter translate operation consists of the model and a messages list
of exactly one message, whose role is user and whose content is the fixed
instruction template with target_language and text substituted verbatim. -/
theorem C6_translate_call_single_verbatim_message
    (text target_language model : String) :
    (translate_text_call text target_language model).model = model
    ∧ (translate_text_call text target_language model).messages =
      [{ role := "user",
         content := "Translate this text into " ++ target_language ++ ": "
           ++ text }]
    ∧ (translate_text_call text target_language model).messages.length = 1 :=
  ⟨rfl, rfl, rfl⟩

/-- C7: for every tuple of arguments and every provider behavior, generate
and complete_code issue the identical outbound provider call and both equal
the one shared adapter shape, differing only in the operation-specific
generic detail text; their default model identifiers are the only other
difference. -/
theorem C7_generate_and_complete_code_same_shape (prompt model : String)
    (max_tokens : Option Int) (temperature : Rat) (top_p : Option Rat)
    (frequency_penalty presence_penalty : Rat) (stop : Option String)
    (provider : CompletionProvider) :
    generate_text_call prompt model max_tokens temperature top_p
        frequency_penalty presence_penalty stop =
      complete_code_call prompt model max_tokens temperature top_p
        frequency_penalty presence_penalty stop
    ∧ OpenAIUtils.generate_text provider prompt model max_tokens temperature
        top_p frequency_penalty presence_penalty stop =
      specSharedAdapterShape "Error generating text: " provider
        (generate_text_call prompt model max_tokens temperature top_p
          frequency_penalty presence_penalty stop)
    ∧ OpenAIUtils.complete_code provider prompt model max_tokens temperature
        top_p frequency_penalty presence_penalty stop =
      specSharedAdapterShape "Error completing code: " provider
        (generate_text_call prompt model max_tokens temperature top_p
          frequency_penalty presence_penalty stop)
    ∧ generate_text_default_model = "text-davinci-003"
    ∧ complete_code_default_model = "code-davinci-002" := by
  refine ⟨rfl, ?_, ?_, rfl, rfl⟩ <;>
  · cases hout : provider (generate_text_call prompt model max_tokens
        temperature top_p frequency_penalty presence_penalty stop) <;>
      simp [OpenAIUtils.generate_text, OpenAIUtils.complete_code,
        specSharedAdapterShape, complete_code_call, generate_text_call,
        pyStr, hout]

/-- C3: whenever the provider returns a response whose choices list is
empty, each of the three service operations fails with the InternalError of
that operation: an HTTPException with status 500 whose detail is the
generic text of the operation followed by the IndexError message, instead
of an unhandled index fault escaping. -/
theorem C3_empty_choices_internal_error
    (providerG providerK : CompletionProvider) (providerT : ChatProvider)
    (prompt model text target_language tmodel kprompt kmodel : String)
    (max_tokens : Option Int) (temperature : Rat) (top_p : Option Rat)
    (frequency_penalty presence_penalty : Rat) (stop : Option String)
    (kmax_tokens : Option Int) (ktemperature : Rat) (ktop_p : Option Rat)
    (kfrequency_penalty kpresence_penalty : Rat) (kstop : Option String)
    (respG respK : CompletionResponse) (respT : ChatResponse)
    (hG : providerG (generate_text_call prompt model max_tokens temperature
        top_p frequency_penalty presence_penalty stop) =
      ProviderOutcome.ok respG)
    (hGe : respG.choices = [])
    (hT : providerT (translate_text_call text target_language tmodel) =
      ProviderOutcome.ok respT)
    (hTe : respT.choices = [])
    (hK : providerK (complete_code_call kprompt kmodel kmax_tokens
        ktemperature ktop_p kfrequency_penalty kpresence_penalty kstop) =
      ProviderOutcome.ok respK)
    (hKe : respK.choices = []) :
    OpenAIService.generate_text providerG prompt model max_tokens temperature
        top_p frequency_penalty presence_penalty stop =
      Except.error (PyError.httpException 500
        "Error generating text: list index out of range")
    ∧ OpenAIService.translate_text providerT text target_language tmodel =
      Except.error (PyError.httpException 500
        "Error translating text: list index out of range")
    ∧ OpenAIService.complete_code providerK kprompt kmodel kmax_tokens
        ktemperature ktop_p kfrequency_penalty kpresence_penalty kstop =
      Except.error (PyError.httpException 500
        "Error completing code: list index out of range") := by
  refine ⟨?_, ?_, ?_⟩
  · simp [OpenAIService.generate_text, OpenAIService.generate_text_try,
      OpenAIUtils.generate_text, hG, hGe, pyStr]
  · simp [OpenAIService.translate_text, OpenAIService.translate_text_try,
      OpenAIUtils.translate_text, hT, hTe, pyStr]
  · simp [OpenAIService.complete_code, OpenAIService.complete_code_try,
      OpenAIUtils.complete_code, hK, hKe, pyStr]

/-- C3 witness: the theorem instantiated with stub providers that return a
response with an empty choices list. -/
theorem C3_empty_choices_internal_error_witness :
    OpenAIService.generate_text
        (fun _ => ProviderOutcome.ok ⟨[], "r1"⟩) "p" "m" Option.none 0
        Option.none 0 0 Option.none =
      Except.error (PyError.httpException 500
        "Error generating text: list index out of range")
    ∧ OpenAIService.translate_text
        (fun _ => ProviderOutcome.ok ⟨[], "r2"⟩) "t" "fr" "m" =
      Except.error (PyError.httpException 500
        "Error translating text: list index out of range")
    ∧ OpenAIService.complete_code
        (fun _ => ProviderOutcome.ok ⟨[], "r3"⟩) "p" "m" Option.none 0
        Option.none 0 0 Option.none =
      Except.error (PyError.httpException 500
        "Error completing code: list index out of range") :=
  C3_empty_choices_internal_error
    (fun _ => ProviderOutcome.ok ⟨[], "r1"⟩)
    (fun _ => ProviderOutcome.ok ⟨[], "r3"⟩)
    (fun _ => ProviderOutcome.ok ⟨[], "r2"⟩)
    "p" "m" "t" "fr" "m" "p" "m" Option.none 0 Option.none 0 0 Option.none
    Option.none 0 Option.none 0 0 Option.none
    ⟨[], "r1"⟩ ⟨[], "r3"⟩ ⟨[], "r2"⟩ rfl rfl rfl rfl rfl rfl

/-- C4: when the provider response of generate_text has a first choice whose
text is X, the service returns exactly the single-key mapping from text to
X, and likewise complete_code returns exactly the single-key mapping from
code to its first choice text. -/
theorem C4_success_returns_first_choice_text
    (providerG providerK : CompletionProvider)
    (prompt model kprompt kmodel : String)
    (max_tokens : Option Int) (temperature : Rat) (top_p : Option Rat)
    (frequency_penalty presence_penalty : Rat) (stop : Option String)
    (kmax_tokens : Option Int) (ktemperature : Rat) (ktop_p : Option Rat)
    (kfrequency_penalty kpresence_penalty : Rat) (kstop : Option String)
    (respG respK : CompletionResponse) (cG cK : CompletionChoice)
    (restG restK : List CompletionChoice) (X Z : String)
    (hG : providerG (generate_text_call prompt model max_tokens temperature
        top_p frequency_penalty presence_penalty stop) =
      ProviderOutcome.ok respG)
    (hGe : respG.choices = cG :: restG) (hGt : cG.text = X)
    (hK : providerK (complete_code_call kprompt kmodel kmax_tokens
        ktemperature ktop_p kfrequency_penalty kpresence_penalty kstop) =
      ProviderOutcome.ok respK)
    (hKe : respK.choices = cK :: restK) (hKt : cK.text = Z) :
    OpenAIService.generate_text providerG prompt model max_tokens temperature
        top_p frequency_penalty presence_penalty stop =
      Except.ok [("text", X)]
    ∧ OpenAIService.complete_code providerK kprompt kmodel kmax_tokens
        ktemperature ktop_p kfrequency_penalty kpresence_penalty kstop =
      Except.ok [("code", Z)] := by
  constructor
  · simp [OpenAIService.generate_text, OpenAIService.generate_text_try,
      OpenAIUtils.generate_text, hG, hGe, hGt]
  · simp [OpenAIService.complete_code, OpenAIService.complete_code_try,
      OpenAIUtils.complete_code, hK, hKe, hKt]

/-- C4 witness: the theorem instantiated with stub providers whose first
choice text is the string X and the string Z. -/
theorem C4_success_returns_first_choice_text_witness :
    OpenAIService.generate_text
        (fun _ => ProviderOutcome.ok ⟨[⟨"X", "stop"⟩], "r1"⟩) "p" "m"
        Option.none 0 Option.none 0 0 Option.none =
      Except.ok [("text", "X")]
    ∧ OpenAIService.complete_code
        (fun _ => ProviderOutcome.ok ⟨[⟨"Z", "stop"⟩], "r2"⟩) "p" "m"
        Option.none 0 Option.none 0 0 Option.none =
      Except.ok [("code", "Z")] :=
  C4_success_returns_first_choice_text
    (fun _ => ProviderOutcome.ok ⟨[⟨"X", "stop"⟩], "r1"⟩)
    (fun _ => ProviderOutcome.ok ⟨[⟨"Z", "stop"⟩], "r2"⟩)
    "p" "m" "p" "m" Option.none 0 Option.none 0 0 Option.none
    Option.none 0 Option.none 0 0 Option.none
    ⟨[⟨"X", "stop"⟩], "r1"⟩ ⟨[⟨"Z", "stop"⟩], "r2"⟩
    ⟨"X", "stop"⟩ ⟨"Z", "stop"⟩ [] [] "X" "Z" rfl rfl rfl rfl rfl rfl

/-- C5: when the provider response of translate_text has a first choice
whose message content is Y, the service returns exactly the single-key
mapping from translation to Y; and the result reads no other field of the
provider response: two responses agreeing on the first choice message
content give the same result, whatever their other fields hold. -/
theorem C5_translate_returns_first_choice_content
    (providerT : ChatProvider) (text target_language model Y : String)
    (respT : ChatResponse) (c : ChatChoice) (rest : List ChatChoice)
    (hT : providerT (translate_text_call text target_language model) =
      ProviderOutcome.ok respT)
    (hTe : respT.choices = c :: rest) (hTc : c.message.content = Y) :
    OpenAIService.translate_text providerT text target_language model =
      Except.ok [("translation", Y)]
    ∧ ∀ (r1 r2 : ChatResponse) (c1 c2 : ChatChoice)
        (rest1 rest2 : List ChatChoice),
        r1.choices = c1 :: rest1 → r2.choices = c2 :: rest2 →
        c1.message.content = c2.message.content →
        OpenAIService.translate_text (fun _ => ProviderOutcome.ok r1) text
            target_language model =
          OpenAIService.translate_text (fun _ => ProviderOutcome.ok r2) text
            target_language model := by
  constructor
  · simp [OpenAIService.translate_text, OpenAIService.translate_text_try,
      OpenAIUtils.translate_text, hT, hTe, hTc]
  · intro r1 r2 c1 c2 rest1 rest2 h1 h2 hc
    simp [OpenAIService.translate_text, OpenAIService.translate_text_try,
      OpenAIUtils.translate_text, h1, h2, hc]

/-- C5 witness: the theorem instantiated with a stub provider whose first
choice message content is the string Y, where the unread fields of the two
compared responses differ. -/
theorem C5_translate_returns_first_choice_content_witness :
    OpenAIService.translate_text
        (fun _ => ProviderOutcome.ok ⟨[⟨⟨"assistant", "Y"⟩, "stop"⟩], "r1"⟩)
        "t" "fr" "m" =
      Except.ok [("translation", "Y")]
    ∧ OpenAIService.translate_text
        (fun _ => ProviderOutcome.ok ⟨[⟨⟨"assistant", "Y"⟩, "stop"⟩], "r1"⟩)
        "t" "fr" "m" =
      OpenAIService.translate_text
        (fun _ => ProviderOutcome.ok ⟨[⟨⟨"user", "Y"⟩, "length"⟩], "r2"⟩)
        "t" "fr" "m" := by
  have h := C5_translate_returns_first_choice_content
    (fun _ => ProviderOutcome.ok ⟨[⟨⟨"assistant", "Y"⟩, "stop"⟩], "r1"⟩)
    "t" "fr" "m" "Y" ⟨[⟨⟨"assistant", "Y"⟩, "stop"⟩], "r1"⟩
    ⟨⟨"assistant", "Y"⟩, "stop"⟩ [] rfl rfl rfl
  exact ⟨h.1, h.2 ⟨[⟨⟨"assistant", "Y"⟩, "stop"⟩], "r1"⟩
    ⟨[⟨⟨"user", "Y"⟩, "length"⟩], "r2"⟩ ⟨⟨"assistant", "Y"⟩, "stop"⟩
    ⟨⟨"user", "Y"⟩, "length"⟩ [] [] rfl rfl rfl⟩

/-- C9: every successful result of every service operation is a single-key
mapping whose only key is text, translation or code respectively. -/
theorem C9_success_results_single_key
    (providerG providerK : CompletionProvider) (providerT : ChatProvider)
    (prompt model text target_language tmodel kprompt kmodel : String)
    (max_tokens : Option Int) (temperature : Rat) (top_p : Option Rat)
    (frequency_penalty presence_penalty : Rat) (stop : Option String)
    (kmax_tokens : Option Int) (ktemperature : Rat) (ktop_p : Option Rat)
    (kfrequency_penalty kpresence_penalty : Rat) (kstop : Option String)
    (mG mT mK : List (String × String)) :
    (OpenAIService.generate_text providerG prompt model max_tokens
        temperature top_p frequency_penalty presence_penalty stop =
        Except.ok mG → mG.map Prod.fst = ["text"])
    ∧ (OpenAIService.translate_text providerT text target_language tmodel =
        Except.ok mT → mT.map Prod.fst = ["translation"])
    ∧ (OpenAIService.complete_code providerK kprompt kmodel kmax_tokens
        ktemperature ktop_p kfrequency_penalty kpresence_penalty kstop =
        Except.ok mK → mK.map Prod.fst = ["code"]) := by
  refine ⟨?_, ?_, ?_⟩
  · intro h
    cases hout : providerG (generate_text_call prompt model max_tokens
        temperature top_p frequency_penalty presence_penalty stop) with
    | ok resp =>
      cases hc : resp.choices with
      | nil =>
        simp [OpenAIService.generate_text, OpenAIService.generate_text_try,
          OpenAIUtils.generate_text, hout, hc] at h
      | cons c rest =>
        simp [OpenAIService.generate_text, OpenAIService.generate_text_try,
          OpenAIUtils.generate_text, hout, hc] at h
        simp [← h]
    | apiErr m =>
      simp [OpenAIService.generate_text, OpenAIService.generate_text_try,
        OpenAIUtils.generate_text, hout] at h
    | otherErr m =>
      simp [OpenAIService.generate_text, OpenAIService.generate_text_try,
        OpenAIUtils.generate_text, hout] at h
  · intro h
    cases hout : providerT (translate_text_call text target_language
        tmodel) with
    | ok resp =>
      cases hc : resp.choices with
      | nil =>
        simp [OpenAIService.translate_text,
          OpenAIService.translate_text_try, OpenAIUtils.translate_text,
          hout, hc] at h
      | cons c rest =>
        simp [OpenAIService.translate_text,
          OpenAIService.translate_text_try, OpenAIUtils.translate_text,
          hout, hc] at h
        simp [← h]
    | apiErr m =>
      simp [OpenAIService.translate_text, OpenAIService.translate_text_try,
        OpenAIUtils.translate_text, hout] at h
    | otherErr m =>
      simp [OpenAIService.translate_text, OpenAIService.translate_text_try,
        OpenAIUtils.translate_text, hout] at h
  · intro h
    cases hout : providerK (complete_code_call kprompt kmodel kmax_tokens
        ktemperature ktop_p kfrequency_penalty kpresence_penalty kstop) with
    | ok resp =>
      cases hc : resp.choices with
      | nil =>
        simp [OpenAIService.complete_code, OpenAIService.complete_code_try,
          OpenAIUtils.complete_code, hout, hc] at h
      | cons c rest =>
        simp [OpenAIService.complete_code, OpenAIService.complete_code_try,
          OpenAIUtils.complete_code, hout, hc] at h
        simp [← h]
    | apiErr m =>
      simp [OpenAIService.complete_code, OpenAIService.complete_code_try,
        OpenAIUtils.complete_code, hout] at h
    | otherErr m =>
      simp [OpenAIService.complete_code, OpenAIService.complete_code_try,
        OpenAIUtils.complete_code, hout] at h

/-- C9 witness: the theorem instantiated with stub providers, with each
hypothesis discharged by computation. -/
theorem C9_success_results_single_key_witness :
    ([("text", "X")] : List (String × String)).map Prod.fst = ["text"]
    ∧ ([("translation", "Y")] : List (String × String)).map Prod.fst =
      ["translation"]
    ∧ ([("code", "Z")] : List (String × String)).map Prod.fst = ["code"] := by
  have h := C9_success_results_single_key
    (fun _ => ProviderOutcome.ok ⟨[⟨"X", "stop"⟩], "r1"⟩)
    (fun _ => ProviderOutcome.ok ⟨[⟨"Z", "stop"⟩], "r2"⟩)
    (fun _ => ProviderOutcome.ok ⟨[⟨⟨"assistant", "Y"⟩, "stop"⟩], "r3"⟩)
    "p" "m" "t" "fr" "m" "p" "m" Option.none 0 Option.none 0 0 Option.none
    Option.none 0 Option.none 0 0 Option.none
    [("text", "X")] [("translation", "Y")] [("code", "Z")]
  exact ⟨h.1 rfl, h.2.1 rfl, h.2.2 rfl⟩

theorem wrapped_upstream_props (A m : String)
    (hlen : ("OpenAI API Error").data.length ≤ A.data.length)
    (hA : strStarts A "OpenAI API Error" = false) :
    strOccurs (A ++ pyStr (PyError.httpException 500
        ("OpenAI API Error: " ++ m))) "OpenAI API Error" = true
    ∧ strStarts (A ++ pyStr (PyError.httpException 500
        ("OpenAI API Error: " ++ m))) A = true
    ∧ strStarts (A ++ pyStr (PyError.httpException 500
        ("OpenAI API Error: " ++ m))) "OpenAI API Error" = false := by
  refine ⟨?_, strStarts_self_append A _, strStarts_append_false A _ _ hlen hA⟩
  apply strOccurs_append_right
  show strOccurs ((toString (500 : Nat) ++ ": ") ++
    ("OpenAI API Error: " ++ m)) "OpenAI API Error" = true
  apply strOccurs_append_right
  apply strOccurs_of_starts
  exact strStarts_append_left "OpenAI API Error: " m "OpenAI API Error"
    (by decide)

/-- C1 counterexample: with a provider that raises openai.error.APIError
with message boom, the generate_text service error has status 500 and its
detail does contain the upstream marker, but it starts with the generic
internal-error text of the operation and does not start with the upstream
marker, refuting the claim that the surfaced error is the upstream one
rather than the generic one. -/
theorem C1_upstream_error_counterexample :
    OpenAIService.generate_text (fun _ => ProviderOutcome.apiErr "boom") "p"
        "m" Option.none 0 Option.none 0 0 Option.none =
      Except.error (PyError.httpException 500
        "Error generating text: 500: OpenAI API Error: boom")
    ∧ strStarts "Error generating text: 500: OpenAI API Error: boom"
        "Error generating text: " = true
    ∧ strStarts "Error generating text: 500: OpenAI API Error: boom"
        "OpenAI API Error" = false := by
  refine ⟨rfl, ?_, ?_⟩ <;> decide

/-- C1 amended: when the provider raises openai.error.APIError, every
service operation fails with an HTTPException of status 500 whose detail
contains the upstream marker as a substring, but the detail begins with the
generic internal-error text of the operation and not with the upstream
marker: the adapter has already converted the APIError into an
HTTPException, which the generic branch of the service wraps again. -/
theorem C1_upstream_error_wrapped_as_generic
    (providerG providerK : CompletionProvider) (providerT : ChatProvider)
    (prompt model text target_language tmodel kprompt kmodel : String)
    (max_tokens : Option Int) (temperature : Rat) (top_p : Option Rat)
    (frequency_penalty presence_penalty : Rat) (stop : Option String)
    (kmax_tokens : Option Int) (ktemperature : Rat) (ktop_p : Option Rat)
    (kfrequency_penalty kpresence_penalty : Rat) (kstop : Option String)
    (mG mT mK : String)
    (hG : providerG (generate_text_call prompt model max_tokens temperature
        top_p frequency_penalty presence_penalty stop) =
      ProviderOutcome.apiErr mG)
    (hT : providerT (translate_text_call text target_language tmodel) =
      ProviderOutcome.apiErr mT)
    (hK : providerK (complete_code_call kprompt kmodel kmax_tokens
        ktemperature ktop_p kfrequency_penalty kpresence_penalty kstop) =
      ProviderOutcome.apiErr mK) :
    (OpenAIService.generate_text providerG prompt model max_tokens
        temperature top_p frequency_penalty presence_penalty stop =
      Except.error (PyError.httpException 500 ("Error generating text: " ++
        pyStr (PyError.httpException 500 ("OpenAI API Error: " ++ mG))))
    ∧ strOccurs ("Error generating text: " ++ pyStr (PyError.httpException
        500 ("OpenAI API Error: " ++ mG))) "OpenAI API Error" = true
    ∧ strStarts ("Error generating text: " ++ pyStr (PyError.httpException
        500 ("OpenAI API Error: " ++ mG))) "Error generating text: " = true
    ∧ strStarts ("Error generating text: " ++ pyStr (PyError.httpException
        500 ("OpenAI API Error: " ++ mG))) "OpenAI API Error" = false)
    ∧ (OpenAIService.translate_text providerT text target_language tmodel =
      Except.error (PyError.httpException 500 ("Error translating text: " ++
        pyStr (PyError.httpException 500 ("OpenAI API Error: " ++ mT))))
    ∧ strOccurs ("Error translating text: " ++ pyStr (PyError.httpException
        500 ("OpenAI API Error: " ++ mT))) "OpenAI API Error" = true
    ∧ strStarts ("Error translating text: " ++ pyStr (PyError.httpException
        500 ("OpenAI API Error: " ++ mT))) "Error translating text: " = true
    ∧ strStarts ("Error translating text: " ++ pyStr (PyError.httpException
        500 ("OpenAI API Error: " ++ mT))) "OpenAI API Error" = false)
    ∧ (OpenAIService.complete_code providerK kprompt kmodel kmax_tokens
        ktemperature ktop_p kfrequency_penalty kpresence_penalty kstop =
      Except.error (PyError.httpException 500 ("Error completing code: " ++
        pyStr (PyError.httpException 500 ("OpenAI API Error: " ++ mK))))
    ∧ strOccurs ("Error completing code: " ++ pyStr (PyError.httpException
        500 ("OpenAI API Error: " ++ mK))) "OpenAI API Error" = true
    ∧ strStarts ("Error completing code: " ++ pyStr (PyError.httpException
        500 ("OpenAI API Error: " ++ mK))) "Error completing code: " = true
    ∧ strStarts ("Error completing code: " ++ pyStr (PyError.httpException
        500 ("OpenAI API Error: " ++ mK))) "OpenAI API Error" = false) := by
  have pG := wrapped_upstream_props "Error generating text: " mG (by decide)
    (by decide)
  have pT := wrapped_upstream_props "Error translating text: " mT (by decide)
    (by decide)
  have pK := wrapped_upstream_props "Error completing code: " mK (by decide)
    (by decide)
  refine ⟨⟨?_, pG.1, pG.2.1, pG.2.2⟩, ⟨?_, pT.1, pT.2.1, pT.2.2⟩,
    ⟨?_, pK.1, pK.2.1, pK.2.2⟩⟩
  · simp [OpenAIService.generate_text, OpenAIService.generate_text_try,
      OpenAIUtils.generate_text, hG, pyStr]
  · simp [OpenAIService.translate_text, OpenAIService.translate_text_try,
      OpenAIUtils.translate_text, hT, pyStr]
  · simp [OpenAIService.complete_code, OpenAIService.complete_code_try,
      OpenAIUtils.complete_code, hK, pyStr]

/-- C1 witness: the amended theorem instantiated with stub providers that
raise openai.error.APIError. -/
theorem C1_upstream_error_wrapped_as_generic_witness :
    OpenAIService.generate_text (fun _ => ProviderOutcome.apiErr "boomG")
        "p" "m" Option.none 0 Option.none 0 0 Option.none =
      Except.error (PyError.httpException 500 ("Error generating text: " ++
        pyStr (PyError.httpException 500 ("OpenAI API Error: " ++ "boomG"))))
    ∧ OpenAIService.translate_text (fun _ => ProviderOutcome.apiErr "boomT")
        "t" "fr" "m" =
      Except.error (PyError.httpException 500 ("Error translating text: " ++
        pyStr (PyError.httpException 500 ("OpenAI API Error: " ++ "boomT"))))
    ∧ OpenAIService.complete_code (fun _ => ProviderOutcome.apiErr "boomK")
        "p" "m" Option.none 0 Option.none 0 0 Option.none =
      Except.error (PyError.httpException 500 ("Error completing code: " ++
        pyStr (PyError.httpException 500
          ("OpenAI API Error: " ++ "boomK")))) := by
  have h := C1_upstream_error_wrapped_as_generic
    (fun _ => ProviderOutcome.apiErr "boomG")
    (fun _ => ProviderOutcome.apiErr "boomK")
    (fun _ => ProviderOutcome.apiErr "boomT")
    "p" "m" "t" "fr" "m" "p" "m" Option.none 0 Option.none 0 0 Option.none
    Option.none 0 Option.none 0 0 Option.none
    "boomG" "boomT" "boomK" rfl rfl rfl
  exact ⟨h.1.1, h.2.1.1, h.2.2.1⟩

/-- C8: every failure arising during a service operation surfaces as an
HTTPException of status 500 whose detail is the generic text of the
operation followed by the text str(e) of the underlying exception; a
normal result is returned only when the provider call succeeded with a
nonempty choices list, so no failure is swallowed and none is retried. -/
theorem C8_failures_surface_as_500_embedding_text
    (providerG providerK : CompletionProvider) (providerT : ChatProvider)
    (prompt model text target_language tmodel kprompt kmodel : String)
    (max_tokens : Option Int) (temperature : Rat) (top_p : Option Rat)
    (frequency_penalty presence_penalty : Rat) (stop : Option String)
    (kmax_tokens : Option Int) (ktemperature : Rat) (ktop_p : Option Rat)
    (kfrequency_penalty kpresence_penalty : Rat) (kstop : Option String) :
    (∀ m, providerG (generate_text_call prompt model max_tokens temperature
        top_p frequency_penalty presence_penalty stop) =
        ProviderOutcome.apiErr m →
      OpenAIService.generate_text providerG prompt model max_tokens
          temperature top_p frequency_penalty presence_penalty stop =
        Except.error (PyError.httpException 500 ("Error generating text: "
          ++ pyStr (PyError.httpException 500 ("OpenAI API Error: " ++ m)))))
    ∧ (∀ m, providerG (generate_text_call prompt model max_tokens temperature
        top_p frequency_penalty presence_penalty stop) =
        ProviderOutcome.otherErr m →
      OpenAIService.generate_text providerG prompt model max_tokens
          temperature top_p frequency_penalty presence_penalty stop =
        Except.error (PyError.httpException 500 ("Error generating text: "
          ++ pyStr (PyError.httpException 500
            ("Error generating text: " ++ m)))))
    ∧ (∀ resp, providerG (generate_text_call prompt model max_tokens
        temperature top_p frequency_penalty presence_penalty stop) =
        ProviderOutcome.ok resp → resp.choices = [] →
      OpenAIService.generate_text providerG prompt model max_tokens
          temperature top_p frequency_penalty presence_penalty stop =
        Except.error (PyError.httpException 500 ("Error generating text: "
          ++ pyStr (PyError.indexError "list index out of range"))))
    ∧ (∀ res, OpenAIService.generate_text providerG prompt model max_tokens
          temperature top_p frequency_penalty presence_penalty stop =
        Except.ok res →
      ∃ resp, providerG (generate_text_call prompt model max_tokens
          temperature top_p frequency_penalty presence_penalty stop) =
        ProviderOutcome.ok resp ∧ resp.choices ≠ [])
    ∧ (∀ m, providerT (translate_text_call text target_language tmodel) =
        ProviderOutcome.apiErr m →
      OpenAIService.translate_text providerT text target_language tmodel =
        Except.error (PyError.httpException 500 ("Error translating text: "
          ++ pyStr (PyError.httpException 500 ("OpenAI API Error: " ++ m)))))
    ∧ (∀ m, providerT (translate_text_call text target_language tmodel) =
        ProviderOutcome.otherErr m →
      OpenAIService.translate_text providerT text target_language tmodel =
        Except.error (PyError.httpException 500 ("Error translating text: "
          ++ pyStr (PyError.httpException 500
            ("Error translating text: " ++ m)))))
    ∧ (∀ resp, providerT (translate_text_call text target_language tmodel) =
        ProviderOutcome.ok resp → resp.choices = [] →
      OpenAIService.translate_text providerT text target_language tmodel =
        Except.error (PyError.httpException 500 ("Error translating text: "
          ++ pyStr (PyError.indexError "list index out of range"))))
    ∧ (∀ res, OpenAIService.translate_text providerT text target_language
          tmodel = Except.ok res →
      ∃ resp, providerT (translate_text_call text target_language tmodel) =
        ProviderOutcome.ok resp ∧ resp.choices ≠ [])
    ∧ (∀ m, providerK (complete_code_call kprompt kmodel kmax_tokens
        ktemperature ktop_p kfrequency_penalty kpresence_penalty kstop) =
        ProviderOutcome.apiErr m →
      OpenAIService.complete_code providerK kprompt kmodel kmax_tokens
          ktemperature ktop_p kfrequency_penalty kpresence_penalty kstop =
        Except.error (PyError.httpException 500 ("Error completing code: "
          ++ pyStr (PyError.httpException 500 ("OpenAI API Error: " ++ m)))))
    ∧ (∀ m, providerK (complete_code_call kprompt kmodel kmax_tokens
        ktemperature ktop_p kfrequency_penalty kpresence_penalty kstop) =
        ProviderOutcome.otherErr m →
      OpenAIService.complete_code providerK kprompt kmodel kmax_tokens
          ktemperature ktop_p kfrequency_penalty kpresence_penalty kstop =
        Except.error (PyError.httpException 500 ("Error completing code: "
          ++ pyStr (PyError.httpException 500
            ("Error completing code: " ++ m)))))
    ∧ (∀ resp, providerK (complete_code_call kprompt kmodel kmax_tokens
        ktemperature ktop_p kfrequency_penalty kpresence_penalty kstop) =
        ProviderOutcome.ok resp → resp.choices = [] →
      OpenAIService.complete_code providerK kprompt kmodel kmax_tokens
          ktemperature ktop_p kfrequency_penalty kpresence_penalty kstop =
        Except.error (PyError.httpException 500 ("Error completing code: "
          ++ pyStr (PyError.indexError "list index out of range"))))
    ∧ (∀ res, OpenAIService.complete_code providerK kprompt kmodel
          kmax_tokens ktemperature ktop_p kfrequency_penalty
          kpresence_penalty kstop = Except.ok res →
      ∃ resp, providerK (complete_code_call kprompt kmodel kmax_tokens
          ktemperature ktop_p kfrequency_penalty kpresence_penalty kstop) =
        ProviderOutcome.ok resp ∧ resp.choices ≠ []) := by
  refine ⟨?_, ?_, ?_, ?_, ?_, ?_, ?_, ?_, ?_, ?_, ?_, ?_⟩
  · intro m hm
    simp [OpenAIService.generate_text, OpenAIService.generate_text_try,
      OpenAIUtils.generate_text, hm, pyStr]
  · intro m hm
    simp [OpenAIService.generate_text, OpenAIService.generate_text_try,
      OpenAIUtils.generate_text, hm, pyStr]
  · intro resp hresp hc
    simp [OpenAIService.generate_text, OpenAIService.generate_text_try,
      OpenAIUtils.generate_text, hresp, hc, pyStr]
  · intro res h
    cases hout : providerG (generate_text_call prompt model max_tokens
        temperature top_p frequency_penalty presence_penalty stop) with
    | ok resp =>
      cases hc : resp.choices with
      | nil =>
        simp [OpenAIService.generate_text, OpenAIService.generate_text_try,
          OpenAIUtils.generate_text, hout, hc] at h
      | cons c rest => exact ⟨resp, rfl, by simp [hc]⟩
    | apiErr m =>
      simp [OpenAIService.generate_text, OpenAIService.generate_text_try,
        OpenAIUtils.generate_text, hout] at h
    | otherErr m =>
      simp [OpenAIService.generate_text, OpenAIService.generate_text_try,
        OpenAIUtils.generate_text, hout] at h
  · intro m hm
    simp [OpenAIService.translate_text, OpenAIService.translate_text_try,
      OpenAIUtils.translate_text, hm, pyStr]
  · intro m hm
    simp [OpenAIService.translate_text, OpenAIService.translate_text_try,
      OpenAIUtils.translate_text, hm, pyStr]
  · intro resp hresp hc
    simp [OpenAIService.translate_text, OpenAIService.translate_text_try,
      OpenAIUtils.translate_text, hresp, hc, pyStr]
  · intro res h
    cases hout : providerT (translate_text_call text target_language
        tmodel) with
    | ok resp =>
      cases hc : resp.choices with
      | nil =>
        simp [OpenAIService.translate_text,
          OpenAIService.translate_text_try, OpenAIUtils.translate_text,
          hout, hc] at h
      | cons c rest => exact ⟨resp, rfl, by simp [hc]⟩
    | apiErr m =>
      simp [OpenAIService.translate_text, OpenAIService.translate_text_try,
        OpenAIUtils.translate_text, hout] at h
    | otherErr m =>
      simp [OpenAIService.translate_text, OpenAIService.translate_text_try,
        OpenAIUtils.translate_text, hout] at h
  · intro m hm
    simp [OpenAIService.complete_code, OpenAIService.complete_code_try,
      OpenAIUtils.complete_code, hm, pyStr]
  · intro m hm
    simp [OpenAIService.complete_code, OpenAIService.complete_code_try,
      OpenAIUtils.complete_code, hm, pyStr]
  · intro resp hresp hc
    simp [OpenAIService.complete_code, OpenAIService.complete_code_try,
      OpenAIUtils.complete_code, hresp, hc, pyStr]
  · intro res h
    cases hout : providerK (complete_code_call kprompt kmodel kmax_tokens
        ktemperature ktop_p kfrequency_penalty kpresence_penalty kstop) with
    | ok resp =>
      cases hc : resp.choices with
      | nil =>
        simp [OpenAIService.complete_code, OpenAIService.complete_code_try,
          OpenAIUtils.complete_code, hout, hc] at h
      | cons c rest => exact ⟨resp, rfl, by simp [hc]⟩
    | apiErr m =>
      simp [OpenAIService.complete_code, OpenAIService.complete_code_try,
        OpenAIUtils.complete_code, hout] at h
    | otherErr m =>
      simp [OpenAIService.complete_code, OpenAIService.complete_code_try,
        OpenAIUtils.complete_code, hout] at h

/-- C8 witness: three of the failure conjuncts of the theorem instantiated
with stub providers, with each hypothesis discharged by computation. -/
theorem C8_failures_surface_as_500_embedding_text_witness :
    OpenAIService.generate_text (fun _ => ProviderOutcome.apiErr "boom") "p"
        "m" Option.none 0 Option.none 0 0 Option.none =
      Except.error (PyError.httpException 500 ("Error generating text: " ++
        pyStr (PyError.httpException 500 ("OpenAI API Error: " ++ "boom"))))
    ∧ OpenAIService.translate_text (fun _ => ProviderOutcome.otherErr "net")
        "t" "fr" "m" =
      Except.error (PyError.httpException 500 ("Error translating text: " ++
        pyStr (PyError.httpException 500 ("Error translating text: " ++
          "net"))))
    ∧ OpenAIService.complete_code (fun _ => ProviderOutcome.ok ⟨[], "r"⟩)
        "p" "m" Option.none 0 Option.none 0 0 Option.none =
      Except.error (PyError.httpException 500 ("Error completing code: " ++
        pyStr (PyError.indexError "list index out of range"))) := by
  have h := C8_failures_surface_as_500_embedding_text
    (fun _ => ProviderOutcome.apiErr "boom")
    (fun _ => ProviderOutcome.ok ⟨[], "r"⟩)
    (fun _ => ProviderOutcome.otherErr "net")
    "p" "m" "t" "fr" "m" "p" "m" Option.none 0 Option.none 0 0 Option.none
    Option.none 0 Option.none 0 0 Option.none
  exact ⟨h.1 "boom" rfl, h.2.2.2.2.2.1 "net" rfl,
    h.2.2.2.2.2.2.2.2.2.2.1 ⟨[], "r"⟩ rfl rfl⟩

/-- C10: the adapter converts every openai.error.APIError into an
HTTPException before re-raising, so the adapter never raises an APIError
and the APIError branch of the service is unreachable: every service error
is an HTTPException of status 500 produced by the generic branch, whose
detail begins with the generic text of the operation and never with the
upstream marker of the service. -/
theorem C10_service_apierror_branch_unreachable
    (providerG providerK : CompletionProvider) (providerT : ChatProvider)
    (prompt model text target_language tmodel kprompt kmodel : String)
    (max_tokens : Option Int) (temperature : Rat) (top_p : Option Rat)
    (frequency_penalty presence_penalty : Rat) (stop : Option String)
    (kmax_tokens : Option Int) (ktemperature : Rat) (ktop_p : Option Rat)
    (kfrequency_penalty kpresence_penalty : Rat) (kstop : Option String) :
    (∀ m, OpenAIUtils.generate_text providerG prompt model max_tokens
        temperature top_p frequency_penalty presence_penalty stop ≠
      Except.error (PyError.apiError m))
    ∧ (∀ e, OpenAIService.generate_text providerG prompt model max_tokens
        temperature top_p frequency_penalty presence_penalty stop =
        Except.error e →
      PyError.isHttp500 e = true
      ∧ strStarts (PyError.detail e) "Error generating text: " = true
      ∧ strStarts (PyError.detail e) "OpenAI API Error:" = false)
    ∧ (∀ m, OpenAIUtils.translate_text providerT text target_language
        tmodel ≠ Except.error (PyError.apiError m))
    ∧ (∀ e, OpenAIService.translate_text providerT text target_language
        tmodel = Except.error e →
      PyError.isHttp500 e = true
      ∧ strStarts (PyError.detail e) "Error translating text: " = true
      ∧ strStarts (PyError.detail e) "OpenAI API Error:" = false)
    ∧ (∀ m, OpenAIUtils.complete_code providerK kprompt kmodel kmax_tokens
        ktemperature ktop_p kfrequency_penalty kpresence_penalty kstop ≠
      Except.error (PyError.apiError m))
    ∧ (∀ e, OpenAIService.complete_code providerK kprompt kmodel kmax_tokens
        ktemperature ktop_p kfrequency_penalty kpresence_penalty kstop =
        Except.error e →
      PyError.isHttp500 e = true
      ∧ strStarts (PyError.detail e) "Error completing code: " = true
      ∧ strStarts (PyError.detail e) "OpenAI API Error:" = false) := by
  refine ⟨?_, ?_, ?_, ?_, ?_, ?_⟩
  · intro m h
    cases hout : providerG (generate_text_call prompt model max_tokens
        temperature top_p frequency_penalty presence_penalty stop) <;>
      simp [OpenAIUtils.generate_text, hout] at h
  · intro e h
    cases hout : providerG (generate_text_call prompt model max_tokens
        temperature top_p frequency_penalty presence_penalty stop) with
    | ok resp =>
      cases hc : resp.choices with
      | nil =>
        simp [OpenAIService.generate_text, OpenAIService.generate_text_try,
          OpenAIUtils.generate_text, hout, hc] at h
        subst h
        exact ⟨rfl, strStarts_self_append _ _,
          strStarts_append_false _ _ _ (by decide) (by decide)⟩
      | cons c rest =>
        simp [OpenAIService.generate_text, OpenAIService.generate_text_try,
          OpenAIUtils.generate_text, hout, hc] at h
    | apiErr m =>
      simp [OpenAIService.generate_text, OpenAIService.generate_text_try,
        OpenAIUtils.generate_text, hout] at h
      subst h
      exact ⟨rfl, strStarts_self_append _ _,
        strStarts_append_false _ _ _ (by decide) (by decide)⟩
    | otherErr m =>
      simp [OpenAIService.generate_text, OpenAIService.generate_text_try,
        OpenAIUtils.generate_text, hout] at h
      subst h
      exact ⟨rfl, strStarts_self_append _ _,
        strStarts_append_false _ _ _ (by decide) (by decide)⟩
  · intro m h
    cases hout : providerT (translate_text_call text target_language
        tmodel) <;> simp [OpenAIUtils.translate_text, hout] at h
  · intro e h
    cases hout : providerT (translate_text_call text target_language
        tmodel) with
    | ok resp =>
      cases hc : resp.choices with
      | nil =>
        simp [OpenAIService.translate_text,
          OpenAIService.translate_text_try, OpenAIUtils.translate_text,
          hout, hc] at h
        subst h
        exact ⟨rfl, strStarts_self_append _ _,
          strStarts_append_false _ _ _ (by decide) (by decide)⟩
      | cons c rest =>
        simp [OpenAIService.translate_text,
          OpenAIService.translate_text_try, OpenAIUtils.translate_text,
          hout, hc] at h
    | apiErr m =>
      simp [OpenAIService.translate_text, OpenAIService.translate_text_try,
        OpenAIUtils.translate_text, hout] at h
      subst h
      exact ⟨rfl, strStarts_self_append _ _,
        strStarts_append_false _ _ _ (by decide) (by decide)⟩
    | otherErr m =>
      simp [OpenAIService.translate_text, OpenAIService.translate_text_try,
        OpenAIUtils.translate_text, hout] at h
      subst h
      exact ⟨rfl, strStarts_self_append _ _,
        strStarts_append_false _ _ _ (by decide) (by decide)⟩
  · intro m h
    cases hout : providerK (complete_code_call kprompt kmodel kmax_tokens
        ktemperature ktop_p kfrequency_penalty kpresence_penalty kstop) <;>
      simp [OpenAIUtils.complete_code, hout] at h
  · intro e h
    cases hout : providerK (complete_code_call kprompt kmodel kmax_tokens
        ktemperature ktop_p kfrequency_penalty kpresence_penalty kstop) with
    | ok resp =>
      cases hc : resp.choices with
      | nil =>
        simp [OpenAIService.complete_code, OpenAIService.complete_code_try,
          OpenAIUtils.complete_code, hout, hc] at h
        subst h
        exact ⟨rfl, strStarts_self_append _ _,
          strStarts_append_false _ _ _ (by decide) (by decide)⟩
      | cons c rest =>
        simp [OpenAIService.complete_code, OpenAIService.complete_code_try,
          OpenAIUtils.complete_code, hout, hc] at h
    | apiErr m =>
      simp [OpenAIService.complete_code, OpenAIService.complete_code_try,
        OpenAIUtils.complete_code, hout] at h
      subst h
      exact ⟨rfl, strStarts_self_append _ _,
        strStarts_append_false _ _ _ (by decide) (by decide)⟩
    | otherErr m =>
      simp [OpenAIService.complete_code, OpenAIService.complete_code_try,
        OpenAIUtils.complete_code, hout] at h
      subst h
      exact ⟨rfl, strStarts_self_append _ _,
        strStarts_append_false _ _ _ (by decide) (by decide)⟩

/-- C10 witness: the theorem instantiated with stub providers that raise
openai.error.APIError, with each hypothesis discharged by computation. -/
theorem C10_service_apierror_branch_unreachable_witness :
    OpenAIUtils.generate_text (fun _ => ProviderOutcome.apiErr "boom") "p"
        "m" Option.none 0 Option.none 0 0 Option.none ≠
      Except.error (PyError.apiError "boom")
    ∧ (PyError.isHttp500 (PyError.httpException 500
        ("Error generating text: " ++ pyStr (PyError.httpException 500
          ("OpenAI API Error: " ++ "boom")))) = true
      ∧ strStarts (PyError.detail (PyError.httpException 500
          ("Error generating text: " ++ pyStr (PyError.httpException 500
            ("OpenAI API Error: " ++ "boom")))))
          "Error generating text: " = true
      ∧ strStarts (PyError.detail (PyError.httpException 500
          ("Error generating text: " ++ pyStr (PyError.httpException 500
            ("OpenAI API Error: " ++ "boom")))))
          "OpenAI API Error:" = false) := by
  have h := C10_service_apierror_branch_unreachable
    (fun _ => ProviderOutcome.apiErr "boom")
    (fun _ => ProviderOutcome.apiErr "boom")
    (fun _ => ProviderOutcome.apiErr "boom")
    "p" "m" "t" "fr" "m" "p" "m" Option.none 0 Option.none 0 0 Option.none
    Option.none 0 Option.none 0 0 Option.none
  exact ⟨h.1 "boom", h.2.1 (PyError.httpException 500
    ("Error generating text: " ++ pyStr (PyError.httpException 500
      ("OpenAI API Error: " ++ "boom")))) rfl⟩

end OpenAIWrapper
